import Mathlib

/-!
Verification of the PD (Placement Driver) coordination worker
(src/raftstore/store/worker/pd.rs) via a shallow embedding.

Each handler of the worker is embedded as a pure function from its inputs
(including the stubbed response of the Director RPC and the filesystem
probe result) to the data it emits: the messages passed to the outbound
channel, the counter/gauge updates, and the log events.  Protobuf
messages are embedded as Lean structures over Nat (u64 values), with the
one wrapping addition of the source made explicit modulo 2 ^ 64.
-/

namespace PdWorker

/-- A region epoch: a (conf_ver, version) pair, as in kvproto metapb. -/
structure RegionEpoch where
  conf_ver : Nat
  version : Nat
deriving DecidableEq, Repr

/-- A Raft peer descriptor.  Modelled from the spec: kvproto metapb is not
part of the shown sources; the spec describes a peer as (node id, peer id,
role flag), embedded here as store_id, id and a boolean role flag.
Equality is structural over all fields, as protobuf PartialEq is. -/
structure Peer where
  id : Nat
  store_id : Nat
  role : Bool
deriving DecidableEq, Repr

/-- A region descriptor: id, epoch and member list (kvproto metapb.Region,
restricted to the fields the worker reads). -/
structure Region where
  id : Nat
  region_epoch : RegionEpoch
  peers : List Peer
deriving DecidableEq, Repr

/-- The three StoreStats fields the worker completes (pdpb.StoreStats,
other fields are opaque pass-through). -/
structure StoreStats where
  used_size : Nat
  capacity : Nat
  available : Nat
deriving DecidableEq, Repr

/-- Capacity context of the local node (raftstore StoreInfo): the
configured capacity, 0 meaning unbounded.  The engine handle itself is
opaque; its used-size probe is passed as a separate argument. -/
structure StoreInfo where
  capacity : Nat
deriving DecidableEq, Repr

/-- Result of the fs2 statvfs probe: total and free bytes. -/
structure DiskStats where
  total_space : Nat
  free_space : Nat
deriving DecidableEq, Repr

/-- u64 addition as Rust release-mode wrapping addition. -/
def u64Add (a b : Nat) : Nat := (a + b) % 2 ^ 64

/-- Admin command type tag (kvproto AdminCmdType, restricted to the ones
this worker builds). -/
inductive AdminCmdType
  | ChangePeer
  | Split
  | TransferLeader
deriving DecidableEq, Repr

/-- Conf change type (kvproto eraftpb.ConfChangeType). -/
inductive ConfChangeType
  | AddNode
  | RemoveNode
deriving DecidableEq, Repr

/-- Payload of a ChangePeer admin request. -/
structure ChangePeerRequest where
  change_type : ConfChangeType
  peer : Peer
deriving DecidableEq, Repr

/-- Payload of a Split admin request. -/
structure SplitRequest where
  split_key : List Nat
  new_region_id : Nat
  new_peer_ids : List Nat
  right_derive : Bool
deriving DecidableEq, Repr

/-- Payload of a TransferLeader admin request. -/
structure TransferLeaderRequest where
  peer : Peer
deriving DecidableEq, Repr

/-- An AdminRequest: the command-type tag plus the optional sub-messages,
mirroring the protobuf struct that the three builders fill in. -/
structure AdminRequest where
  cmd_type : AdminCmdType
  change_peer : Option ChangePeerRequest
  split : Option SplitRequest
  transfer_leader : Option TransferLeaderRequest
deriving DecidableEq, Repr

/-- Header of a RaftCmdRequest as filled by send_admin_request. -/
structure RequestHeader where
  region_id : Nat
  region_epoch : RegionEpoch
  peer : Peer
deriving DecidableEq, Repr

/-- A Raft admin command request: header plus admin payload. -/
structure RaftCmdRequest where
  header : RequestHeader
  admin_request : AdminRequest
deriving DecidableEq, Repr

/-- A raft_serverpb.RaftMessage, restricted to the fields
send_destroy_peer_message sets. -/
structure RaftMessage where
  region_id : Nat
  from_peer : Peer
  to_peer : Peer
  region_epoch : RegionEpoch
  is_tombstone : Bool
deriving DecidableEq, Repr

/-- A message handed to the outbound channel (raftstore Msg): either a
Raft command (with a flag recording whether the caller supplied a
callback, a no-op being substituted otherwise) or a raw Raft message. -/
inductive Msg
  | newRaftCmd (req : RaftCmdRequest) (has_callback : Bool)
  | raftMessage (m : RaftMessage)
deriving DecidableEq, Repr

/-- new_change_peer_request: cmd_type ChangePeer with change_type and
peer set on the change_peer sub-message. -/
def new_change_peer_request (change_type : ConfChangeType) (peer : Peer) :
    AdminRequest :=
  { cmd_type := AdminCmdType.ChangePeer
    change_peer := some { change_type := change_type, peer := peer }
    split := none
    transfer_leader := none }

/-- new_split_region_request: cmd_type Split with split_key,
new_region_id, new_peer_ids and right_derive set on the split
sub-message. -/
def new_split_region_request (split_key : List Nat) (new_region_id : Nat)
    (peer_ids : List Nat) (right_derive : Bool) : AdminRequest :=
  { cmd_type := AdminCmdType.Split
    change_peer := none
    split := some { split_key := split_key, new_region_id := new_region_id,
                    new_peer_ids := peer_ids, right_derive := right_derive }
    transfer_leader := none }

/-- new_transfer_leader_request: cmd_type TransferLeader with peer set on
the transfer_leader sub-message. -/
def new_transfer_leader_request (peer : Peer) : AdminRequest :=
  { cmd_type := AdminCmdType.TransferLeader
    change_peer := none
    split := none
    transfer_leader := some { peer := peer } }

/-- send_admin_request: builds the RaftCmdRequest with the header
(region_id, epoch, peer) and the admin payload, and hands it to the
outbound channel (modelled as returning the message passed to
try_send). -/
def send_admin_request (region_id : Nat) (epoch : RegionEpoch) (peer : Peer)
    (request : AdminRequest) (has_callback : Bool) : Msg :=
  Msg.newRaftCmd
    { header := { region_id := region_id, region_epoch := epoch, peer := peer }
      admin_request := request }
    has_callback

/-- send_destroy_peer_message: the tombstone RaftMessage with the local
region id, from_peer and to_peer both the given peer, the PD region
epoch, and is_tombstone true. -/
def send_destroy_peer_message (local_region : Region) (peer : Peer)
    (pd_region : Region) : Msg :=
  Msg.raftMessage
    { region_id := local_region.id
      from_peer := peer
      to_peer := peer
      region_epoch := pd_region.region_epoch
      is_tombstone := true }

/-- Director response to ask_split. -/
structure AskSplitResponse where
  new_region_id : Nat
  new_peer_ids : List Nat
deriving DecidableEq, Repr

/-- handle_ask_split, given the stubbed Director response: on Ok it emits
exactly the Split admin command built from the response, under a header
holding the region id, the epoch taken from the region, and the
requesting peer; on Err it emits nothing (debug log only). -/
def handle_ask_split (region : Region) (split_key : List Nat) (peer : Peer)
    (right_derive : Bool) (has_callback : Bool)
    (resp : Except Unit AskSplitResponse) : List Msg :=
  match resp with
  | Except.ok r =>
      [send_admin_request region.id region.region_epoch peer
        (new_split_region_request split_key r.new_region_id r.new_peer_ids
          right_derive)
        has_callback]
  | Except.error _ => []

/-- is_epoch_stale.  Modelled from the spec: raftstore::store::util is not
among the shown sources.  The spec says epochs are partially ordered by
(conf_ver, version) pairwise-max and stale means strictly dominated. -/
def is_epoch_stale (epoch check_epoch : RegionEpoch) : Bool :=
  decide (epoch.conf_ver ≤ check_epoch.conf_ver ∧
    epoch.version ≤ check_epoch.version ∧
    (epoch.conf_ver < check_epoch.conf_ver ∨
      epoch.version < check_epoch.version))

/-- Label incremented on the pd_validate_peer_total counter. -/
inductive ValidateVerdict
  | regionEpochError
  | peerStale
  | peerValid
deriving DecidableEq, Repr

/-- What one ValidatePeer future emits: outbound messages, the verdict
counter it bumps (if any), and whether it logs at error level. -/
structure ValidatePeerOutput where
  msgs : List Msg
  verdict : Option ValidateVerdict
  errorLogged : Bool
deriving DecidableEq, Repr

/-- handle_validate_peer, given the stubbed get_region_by_id response.
With Some(pd_region): if the PD epoch is stale relative to the local one,
log an error, count a region epoch error and stop; else if every PD peer
differs from the probed peer, count peer stale and send the destroy-peer
message; else count peer valid.  With None or an RPC error, no message. -/
def handle_validate_peer (local_region : Region) (peer : Peer)
    (resp : Except Unit (Option Region)) : ValidatePeerOutput :=
  match resp with
  | Except.ok (some pd_region) =>
      if is_epoch_stale pd_region.region_epoch local_region.region_epoch then
        { msgs := [], verdict := some ValidateVerdict.regionEpochError,
          errorLogged := true }
      else if pd_region.peers.all (fun p => decide (p ≠ peer)) then
        { msgs := [send_destroy_peer_message local_region peer pd_region]
          verdict := some ValidateVerdict.peerStale
          errorLogged := false }
      else
        { msgs := [], verdict := some ValidateVerdict.peerValid,
          errorLogged := false }
  | Except.ok none =>
      { msgs := [], verdict := none, errorLogged := false }
  | Except.error _ =>
      { msgs := [], verdict := none, errorLogged := true }

/-- What one StoreHeartbeat handler run emits: the stats sent to the
Director (none when aborted), the two gauge updates, and the log
events. -/
structure StoreHbOutput where
  sent : Option StoreStats
  gaugeCapacity : Option Nat
  gaugeAvailable : Option Nat
  errorLogged : Bool
  warnNoSpace : Bool
deriving DecidableEq, Repr

/-- handle_store_heartbeat, given the stubbed statvfs result and the
engine used-size probe.  On probe error: log error and return, nothing
else happens.  On success: capacity is disk total when configured is 0 or
disk total is below configured, else configured; used is the wrapping sum
of the caller stats and the engine size; available is capacity minus used
(0, with a warning, when used is not below capacity), then clamped by the
disk free space; gauges are set and the completed stats sent. -/
def handle_store_heartbeat (stats : StoreStats) (store_info : StoreInfo)
    (engine_used : Nat) (disk : Except Unit DiskStats) : StoreHbOutput :=
  match disk with
  | Except.error _ =>
      { sent := none, gaugeCapacity := none, gaugeAvailable := none,
        errorLogged := true, warnNoSpace := false }
  | Except.ok disk_stats =>
      let disk_cap := disk_stats.total_space
      let capacity :=
        if store_info.capacity = 0 ∨ disk_cap < store_info.capacity then
          disk_cap
        else
          store_info.capacity
      let used_size := u64Add stats.used_size engine_used
      let avail0 := if capacity > used_size then capacity - used_size else 0
      let available :=
        if avail0 > disk_stats.free_space then disk_stats.free_space else avail0
      { sent := some { used_size := used_size, capacity := capacity,
                       available := available }
        gaugeCapacity := some capacity
        gaugeAvailable := some available
        errorLogged := false
        warnNoSpace := decide (¬ capacity > used_size) }

/-- Directive payload for a ChangePeer (pdpb.ChangePeer). -/
structure ChangePeerDirective where
  change_type : ConfChangeType
  peer : Peer
deriving DecidableEq, Repr

/-- Directive payload for a TransferLeader (pdpb.TransferLeader). -/
structure TransferLeaderDirective where
  peer : Peer
deriving DecidableEq, Repr

/-- One directive from the Director response stream
(pdpb.RegionHeartbeatResponse): region id, epoch, target peer, and the
two optional variants. -/
structure RegionHeartbeatResponse where
  region_id : Nat
  region_epoch : RegionEpoch
  target_peer : Peer
  change_peer : Option ChangePeerDirective
  transfer_leader : Option TransferLeaderDirective
deriving DecidableEq, Repr

/-- The per-directive body of schedule_heartbeat_receiver: if the
directive has a ChangePeer, emit one ChangePeer admin command under the
directive header with no callback; else if it has a TransferLeader, emit
one TransferLeader admin command; else emit nothing. -/
def handle_heartbeat_response (resp : RegionHeartbeatResponse) : List Msg :=
  match resp.change_peer with
  | some change_peer =>
      [send_admin_request resp.region_id resp.region_epoch resp.target_peer
        (new_change_peer_request change_peer.change_type change_peer.peer)
        false]
  | none =>
      match resp.transfer_leader with
      | some transfer_leader =>
          [send_admin_request resp.region_id resp.region_epoch
            resp.target_peer
            (new_transfer_leader_request transfer_leader.peer)
            false]
      | none => []

/-- The task variants dispatched by run (payloads are consumed by the
individual handlers, modelled above; only the variant matters to the
dispatcher gate). -/
inductive TaskKind
  | askSplit
  | heartbeat
  | storeHeartbeat
  | reportSplit
  | validatePeer
deriving DecidableEq, Repr

/-- The dispatcher state the gate lives in. -/
structure RunnerState where
  is_hb_receiver_scheduled : Bool
deriving DecidableEq, Repr

/-- schedule_heartbeat_receiver: spawns the consumer future and sets the
gate.  Returns the new state and the fact that a spawn happened. -/
def schedule_heartbeat_receiver (s : RunnerState) : RunnerState × Bool :=
  ({ s with is_hb_receiver_scheduled := true }, true)

/-- run: before dispatching on the task variant, spawns the heartbeat
response consumer when the gate is unset.  Returns the new state and
whether this invocation spawned the consumer. -/
def run (s : RunnerState) (task : TaskKind) : RunnerState × Bool :=
  match task with
  | _ =>
      if ¬ s.is_hb_receiver_scheduled then
        schedule_heartbeat_receiver s
      else
        (s, false)

/-- Fold run over a task sequence, counting consumer spawns. -/
def runSeq (s : RunnerState) : List TaskKind → RunnerState × Nat
  | [] => (s, 0)
  | t :: ts =>
      let p := run s t
      let q := runSeq p.1 ts
      (q.1, (if p.2 then 1 else 0) + q.2)

/-- The initial dispatcher state: the gate is unset. -/
def initialRunnerState : RunnerState :=
  { is_hb_receiver_scheduled := false }

end PdWorker

namespace PdWorker

/-- Helper: once the gate is set, no later run invocation spawns the
consumer again, and the gate stays set. -/
theorem runSeq_gate_set (ts : List TaskKind) :
    runSeq { is_hb_receiver_scheduled := true } ts =
      ({ is_hb_receiver_scheduled := true }, 0) := by
  induction ts with
  | nil => rfl
  | cons t ts ih =>
      cases t <;> simp [runSeq, run, ih]

/-- Claim C1: for a StoreHeartbeat whose filesystem probe succeeds, the
emitted capacity is the disk total when the configured capacity is 0 and
the minimum of the configured capacity and the disk total otherwise. -/
theorem store_heartbeat_capacity (stats : StoreStats) (store_info : StoreInfo)
    (engine_used : Nat) (d : DiskStats) :
    ∃ st : StoreStats,
      (handle_store_heartbeat stats store_info engine_used (Except.ok d)).sent
          = some st ∧
      st.capacity = (if store_info.capacity = 0 then d.total_space
                     else min store_info.capacity d.total_space) := by
  simp only [handle_store_heartbeat, min_def]
  refine ⟨_, rfl, ?_⟩
  dsimp only
  split_ifs <;> omega

/-- Claim C2: for a StoreHeartbeat whose filesystem probe succeeds, with
used the caller stats plus the engine used size, the emitted available
equals min(capacity - used, free) with saturating subtraction, hence is
at most the free space and at most capacity - used. -/
theorem store_heartbeat_available (stats : StoreStats) (store_info : StoreInfo)
    (engine_used : Nat) (d : DiskStats)
    (h : stats.used_size + engine_used < 2 ^ 64) :
    ∃ st : StoreStats,
      (handle_store_heartbeat stats store_info engine_used (Except.ok d)).sent
          = some st ∧
      st.used_size = stats.used_size + engine_used ∧
      st.available = min (st.capacity - st.used_size) d.free_space ∧
      st.available ≤ d.free_space ∧
      st.available ≤ st.capacity - st.used_size := by
  have hu : u64Add stats.used_size engine_used
      = stats.used_size + engine_used := Nat.mod_eq_of_lt h
  simp only [handle_store_heartbeat, hu, min_def]
  refine ⟨_, rfl, rfl, ?_, ?_, ?_⟩ <;> dsimp only <;> split_ifs <;> omega

/-- Witness for C2 at the capacity-cap scenario: configured 100, disk
total 200, free 80, caller used 10, engine used 30; emitted available is
min(100 - 40, 80) = 60. -/
theorem store_heartbeat_available_witness :
    (10 : Nat) + 30 < 2 ^ 64 ∧
    ∃ st : StoreStats,
      (handle_store_heartbeat { used_size := 10, capacity := 0, available := 0 }
          { capacity := 100 } 30
          (Except.ok { total_space := 200, free_space := 80 })).sent
          = some st ∧
      st.used_size = 10 + 30 ∧
      st.available = min (st.capacity - st.used_size) 80 ∧
      st.available ≤ 80 ∧
      st.available ≤ st.capacity - st.used_size :=
  ⟨by norm_num,
    store_heartbeat_available { used_size := 10, capacity := 0, available := 0 }
      { capacity := 100 } 30 { total_space := 200, free_space := 80 }
      (by norm_num)⟩

/-- Claim C3: an AskSplit whose Director call succeeds emits exactly one
Raft command whose admin payload is the Split request built from the task
key, the response ids and the right_derive flag, under a header carrying
the region id, the region epoch, and the requesting peer. -/
theorem ask_split_emits_split_command (region : Region) (split_key : List Nat)
    (peer : Peer) (right_derive : Bool) (has_callback : Bool)
    (r : AskSplitResponse) :
    handle_ask_split region split_key peer right_derive has_callback
        (Except.ok r) =
      [Msg.newRaftCmd
        { header := { region_id := region.id,
                      region_epoch := region.region_epoch, peer := peer }
          admin_request :=
            { cmd_type := AdminCmdType.Split
              change_peer := none
              split := some { split_key := split_key,
                              new_region_id := r.new_region_id,
                              new_peer_ids := r.new_peer_ids,
                              right_derive := right_derive }
              transfer_leader := none } }
        has_callback] := rfl


/-- Claim C4: with Some(pd_region) from the Director, the tombstone
message (local region id, from_peer and to_peer both the probed peer, the
PD region epoch, is_tombstone true) is emitted iff the peer is not among
pd_region.peers and the local epoch is not strictly fresher (the PD epoch
is not stale relative to the local one); with None nothing is emitted. -/
theorem validate_peer_tombstone_iff (local_region : Region) (peer : Peer)
    (pd_region : Region) :
    ((handle_validate_peer local_region peer
          (Except.ok (some pd_region))).msgs
        = [Msg.raftMessage
            { region_id := local_region.id, from_peer := peer,
              to_peer := peer, region_epoch := pd_region.region_epoch,
              is_tombstone := true }]
      ↔ (peer ∉ pd_region.peers ∧
          is_epoch_stale pd_region.region_epoch local_region.region_epoch
            = false))
    ∧ (handle_validate_peer local_region peer (Except.ok none)).msgs
        = [] := by
  refine ⟨?_, rfl⟩
  simp only [handle_validate_peer, send_destroy_peer_message]
  split_ifs with h1 h2
  · simp [h1]
  · simp only [List.all_eq_true, decide_eq_true_eq] at h2
    have hmem : peer ∉ pd_region.peers := fun hmem => h2 peer hmem rfl
    have hst : is_epoch_stale pd_region.region_epoch
        local_region.region_epoch = false := by
      simpa using h1
    simp [hmem, hst]
  · simp only [List.all_eq_true, decide_eq_true_eq] at h2
    push_neg at h2
    obtain ⟨p, hp, rfl⟩ := h2
    simp [hp]

/-- Claim C5: with Some(pd_region) from the Director whose epoch is stale
relative to the local one (the local epoch is strictly fresher), the
handler logs an error, bumps the region-epoch-error verdict counter, and
emits no message. -/
theorem validate_peer_epoch_error (local_region : Region) (peer : Peer)
    (pd_region : Region)
    (h : is_epoch_stale pd_region.region_epoch local_region.region_epoch
        = true) :
    handle_validate_peer local_region peer (Except.ok (some pd_region)) =
      { msgs := [], verdict := some ValidateVerdict.regionEpochError,
        errorLogged := true } := by
  simp [handle_validate_peer, h]

/-- Witness for C5 at the anomalous-epoch scenario: local epoch (2, 2),
Director epoch (1, 1). -/
theorem validate_peer_epoch_error_witness :
    is_epoch_stale { conf_ver := 1, version := 1 }
        { conf_ver := 2, version := 2 } = true ∧
    handle_validate_peer
        { id := 7, region_epoch := { conf_ver := 2, version := 2 },
          peers := [] }
        { id := 1, store_id := 1, role := false }
        (Except.ok (some
          { id := 7, region_epoch := { conf_ver := 1, version := 1 },
            peers := [] })) =
      { msgs := [], verdict := some ValidateVerdict.regionEpochError,
        errorLogged := true } :=
  ⟨by decide, validate_peer_epoch_error _ _ _ (by decide)⟩

/-- Claim C6: a directive with a ChangePeer yields exactly one ChangePeer
admin command under the directive header with no callback; a directive
with only a TransferLeader yields exactly one TransferLeader admin
command with the directive peer; a directive with neither yields
nothing. -/
theorem heartbeat_response_dispatch (region_id : Nat) (epoch : RegionEpoch)
    (target : Peer) (cp : ChangePeerDirective)
    (tl : Option TransferLeaderDirective) (tld : TransferLeaderDirective) :
    handle_heartbeat_response
        { region_id := region_id, region_epoch := epoch,
          target_peer := target, change_peer := some cp,
          transfer_leader := tl } =
      [Msg.newRaftCmd
        { header := { region_id := region_id, region_epoch := epoch,
                      peer := target }
          admin_request :=
            { cmd_type := AdminCmdType.ChangePeer
              change_peer := some { change_type := cp.change_type,
                                    peer := cp.peer }
              split := none
              transfer_leader := none } }
        false]
    ∧ handle_heartbeat_response
        { region_id := region_id, region_epoch := epoch,
          target_peer := target, change_peer := none,
          transfer_leader := some tld } =
      [Msg.newRaftCmd
        { header := { region_id := region_id, region_epoch := epoch,
                      peer := target }
          admin_request :=
            { cmd_type := AdminCmdType.TransferLeader
              change_peer := none
              split := none
              transfer_leader := some { peer := tld.peer } } }
        false]
    ∧ handle_heartbeat_response
        { region_id := region_id, region_epoch := epoch,
          target_peer := target, change_peer := none,
          transfer_leader := none } = [] :=
  ⟨rfl, rfl, rfl⟩

/-- Claim C7: starting from the initial state, any task sequence spawns
the heartbeat response consumer exactly once, and the very first
invocation spawns it whatever the task variant is. -/
theorem hb_receiver_spawned_once (t : TaskKind) (ts : List TaskKind) :
    (runSeq initialRunnerState (t :: ts)).2 = 1 ∧
    (run initialRunnerState t).2 = true := by
  have hrun : run initialRunnerState t =
      ({ is_hb_receiver_scheduled := true }, true) := by
    cases t <;> rfl
  refine ⟨?_, by rw [hrun]⟩
  simp [runSeq, hrun, runSeq_gate_set]

/-- Claim C8: a StoreHeartbeat whose filesystem probe fails logs an error
and changes nothing else: no stats are completed or sent and no gauge is
updated. -/
theorem store_heartbeat_probe_error (stats : StoreStats)
    (store_info : StoreInfo) (engine_used : Nat) (e : Unit) :
    handle_store_heartbeat stats store_info engine_used (Except.error e) =
      { sent := none, gaugeCapacity := none, gaugeAvailable := none,
        errorLogged := true, warnNoSpace := false } := rfl

/-- Claim C9: a directive carrying both a ChangePeer and a TransferLeader
yields only the ChangePeer admin command; the TransferLeader branch is
reachable only when the ChangePeer variant is absent. -/
theorem change_peer_takes_precedence (region_id : Nat) (epoch : RegionEpoch)
    (target : Peer) (cp : ChangePeerDirective)
    (tld : TransferLeaderDirective) :
    handle_heartbeat_response
        { region_id := region_id, region_epoch := epoch,
          target_peer := target, change_peer := some cp,
          transfer_leader := some tld } =
      [Msg.newRaftCmd
        { header := { region_id := region_id, region_epoch := epoch,
                      peer := target }
          admin_request :=
            { cmd_type := AdminCmdType.ChangePeer
              change_peer := some { change_type := cp.change_type,
                                    peer := cp.peer }
              split := none
              transfer_leader := none } }
        false] := rfl

/-- Claim C10: the ValidatePeer membership test compares whole Peer
values: when every listed PD peer differs from the probed peer, even
though one of them shares its peer id (differing in store id or role),
the peer is treated as absent and the tombstone message is emitted. -/
theorem membership_is_whole_peer_equality (local_region : Region)
    (peer q : Peer) (pd_region : Region)
    (hq : q ∈ pd_region.peers) (hid : q.id = peer.id)
    (hdiff : q.store_id ≠ peer.store_id ∨ q.role ≠ peer.role)
    (hall : ∀ p ∈ pd_region.peers, p ≠ peer)
    (hst : is_epoch_stale pd_region.region_epoch local_region.region_epoch
        = false) :
    (handle_validate_peer local_region peer
        (Except.ok (some pd_region))).msgs
      = [Msg.raftMessage
          { region_id := local_region.id, from_peer := peer,
            to_peer := peer, region_epoch := pd_region.region_epoch,
            is_tombstone := true }] := by
  have h2 : pd_region.peers.all (fun p => decide (p ≠ peer)) = true := by
    simp only [List.all_eq_true, decide_eq_true_eq]
    exact hall
  have h3 : ¬ is_epoch_stale pd_region.region_epoch
      local_region.region_epoch = true := by
    simp [hst]
  simp only [handle_validate_peer, send_destroy_peer_message]
  rw [if_neg h3, if_pos h2]

/-- Witness for C10: probed peer (id 1, store 1), PD region listing only
(id 1, store 2): same peer id, different store, tombstone emitted. -/
theorem membership_is_whole_peer_equality_witness :
    (({ id := 1, store_id := 2, role := false } : Peer)
        ∈ [({ id := 1, store_id := 2, role := false } : Peer)] ∧
      ({ id := 1, store_id := 2, role := false } : Peer).id
        = ({ id := 1, store_id := 1, role := false } : Peer).id ∧
      (({ id := 1, store_id := 2, role := false } : Peer).store_id
          ≠ ({ id := 1, store_id := 1, role := false } : Peer).store_id ∨
        ({ id := 1, store_id := 2, role := false } : Peer).role
          ≠ ({ id := 1, store_id := 1, role := false } : Peer).role) ∧
      (∀ p ∈ [({ id := 1, store_id := 2, role := false } : Peer)],
        p ≠ ({ id := 1, store_id := 1, role := false } : Peer)) ∧
      is_epoch_stale { conf_ver := 1, version := 1 }
        { conf_ver := 1, version := 1 } = false) ∧
    (handle_validate_peer
        { id := 7, region_epoch := { conf_ver := 1, version := 1 },
          peers := [] }
        { id := 1, store_id := 1, role := false }
        (Except.ok (some
          { id := 7, region_epoch := { conf_ver := 1, version := 1 },
            peers := [{ id := 1, store_id := 2, role := false }] }))).msgs
      = [Msg.raftMessage
          { region_id := 7,
            from_peer := { id := 1, store_id := 1, role := false },
            to_peer := { id := 1, store_id := 1, role := false },
            region_epoch := { conf_ver := 1, version := 1 },
            is_tombstone := true }] :=
  ⟨by decide,
    membership_is_whole_peer_equality
      { id := 7, region_epoch := { conf_ver := 1, version := 1 },
        peers := [] }
      { id := 1, store_id := 1, role := false }
      { id := 1, store_id := 2, role := false }
      { id := 7, region_epoch := { conf_ver := 1, version := 1 },
        peers := [{ id := 1, store_id := 2, role := false }] }
      (by decide) (by decide) (by decide) (by decide) (by decide)⟩

end PdWorker
